import Mathlib

/-!
Verification of the secrets-manager resource and data-source files of the
terraform-provider-ibm repository:
  ibm/service/secretsmanager/resource_ibm_sm_arbitrary_secret.go
  ibm/service/secretsmanager/data_source_ibm_sm_service_credentials_secret.go

The Go code is shallowly embedded: each Go function that the claims touch is
translated into a pure Lean function, with the results of every external SDK
call (the secrets-manager REST client, the terraform-plugin-sdk helpers)
passed in as explicit inputs, and the side effects of each lifecycle function
(resource-id updates, `d.Set` writes, the sequence of SDK calls issued,
returned diagnostics) made explicit in its result.
-/

set_option maxHeartbeats 1000000

namespace SmProvider

/-- A Go `error` value as the embedded code observes it: its `Error()` string,
and, when the error is a `bmxerror.RequestFailure`, the HTTP status code that
`StatusCode()` reports (`none` when the type assertion to
`bmxerror.RequestFailure` fails). -/
structure GoError where
  msg : String
  requestFailureCode : Option Nat := none
  deriving Repr, DecidableEq

/-- The part of the SDK's `core.DetailedResponse` the embedded code reads:
the HTTP status code, plus the string that `fmt`'s `%s` verb renders for the
response (used only inside wrapped error messages). -/
structure DetailedResponse where
  statusCode : Nat
  rendered : String := ""
  deriving Repr, DecidableEq

/-- `%s`-rendering of a possibly-nil `*core.DetailedResponse`: Go prints
`<nil>` for a nil pointer. -/
def sprintResponse : Option DetailedResponse → String
  | none => "<nil>"
  | some r => r.rendered

/-- A `strfmt.DateTime` / `time.Time` value, identified for the purposes of
this model by its RFC 3339 rendering. -/
structure GoDateTime where
  rfc3339 : String
  deriving Repr, DecidableEq

/-- The fields of the SDK's `secretsmanagerv2.ArbitrarySecret` response model
that the embedded code reads.  Pointer-typed SDK fields are `Option`s;
`ID` and `StateDescription` are dereferenced unconditionally by the code
(`*secret.ID`, `*stateObj.StateDescription`), so they are modelled as always
present. -/
structure ArbitrarySecret where
  id : String
  stateDescription : String
  createdBy : Option String := none
  createdAt : Option GoDateTime := none
  crn : Option String := none
  downloaded : Option Bool := none
  locksTotal : Option Int := none
  name : Option String := none
  secretGroupId : Option String := none
  secretType : Option String := none
  state : Option Int := none
  updatedAt : Option GoDateTime := none
  versionsTotal : Option Int := none
  customMetadata : Option (List (String × String)) := none
  description : Option String := none
  labels : Option (List String) := none
  expirationDate : Option GoDateTime := none
  payload : Option String := none
  deriving Repr, DecidableEq

/-- The SDK's `secretsmanagerv2.ArbitrarySecretPrototype` request model:
every field is a pointer (or nil-able map/slice) in Go, hence an `Option`. -/
structure ArbitrarySecretPrototype where
  secretType : Option String := none
  name : Option String := none
  payload : Option String := none
  customMetadata : Option (List (String × String)) := none
  description : Option String := none
  expirationDate : Option GoDateTime := none
  labels : Option (List String) := none
  secretGroupId : Option String := none
  versionCustomMetadata : Option (List (String × String)) := none
  deriving Repr, DecidableEq

/-- The arbitrary-secret resource configuration as `d.GetOk` exposes it:
`some v` when the attribute is set (to a non-zero value) in the
configuration, `none` otherwise.  Schema types: `name`, `payload`,
`description`, `expiration_date`, `secret_group_id` are strings; `labels` is
a list whose elements the code renders with `fmt.Sprint` (the schema element
type is string, on which `fmt.Sprint` is the identity); `custom_metadata`
and `version_custom_metadata` are string maps. -/
structure ArbitrarySecretConfig where
  name : Option String := none
  payload : Option String := none
  customMetadata : Option (List (String × String)) := none
  description : Option String := none
  expirationDate : Option String := none
  labels : Option (List String) := none
  secretGroupId : Option String := none
  versionCustomMetadata : Option (List (String × String)) := none
  deriving Repr, DecidableEq

/-- Embedding of `resourceIbmSmArbitrarySecretMapToArbitrarySecretPrototype`
(resource_ibm_sm_arbitrary_secret.go, lines 393-433).  `parseRFC3339` stands
for Go's `time.Parse(time.RFC3339, ·)`: `.ok` with the parsed time on
success, `.error` with the Go error message on failure.  The function sets
`SecretType` to `"arbitrary"`, copies each set field, and fails only when a
set `expiration_date` does not parse. -/
def resourceIbmSmArbitrarySecretMapToArbitrarySecretPrototype
    (parseRFC3339 : String → Except String GoDateTime)
    (d : ArbitrarySecretConfig) : Except String ArbitrarySecretPrototype :=
  let model : ArbitrarySecretPrototype := { secretType := some "arbitrary" }
  let model := match d.name with
    | some v => { model with name := some v }
    | none => model
  let model := match d.payload with
    | some v => { model with payload := some v }
    | none => model
  let model := match d.customMetadata with
    | some v => { model with customMetadata := some v }
    | none => model
  let model := match d.description with
    | some v => { model with description := some v }
    | none => model
  match d.expirationDate with
  | some s =>
    match parseRFC3339 s with
    | .error e => .error ("Failed to get \x22expiration_date\x22. Error: " ++ e)
    | .ok t =>
      let model := { model with expirationDate := some t }
      let model := match d.labels with
        | some v => { model with labels := some v }
        | none => model
      let model := match d.secretGroupId with
        | some v => { model with secretGroupId := some v }
        | none => model
      let model := match d.versionCustomMetadata with
        | some v => { model with versionCustomMetadata := some v }
        | none => model
      .ok model
  | none =>
    let model := match d.labels with
      | some v => { model with labels := some v }
      | none => model
    let model := match d.secretGroupId with
      | some v => { model with secretGroupId := some v }
      | none => model
    let model := match d.versionCustomMetadata with
      | some v => { model with versionCustomMetadata := some v }
      | none => model
    .ok model

/-- The Go triple returned by `secretsManagerClient.GetSecret` (and
`GetSecretWithContext`): the `SecretIntf` result (nil on failure, hence an
`Option`), the detailed response, and the error. -/
structure GetSecretGoResult where
  result : Option ArbitrarySecret
  response : Option DetailedResponse := none
  err : Option GoError := none
  deriving Repr, DecidableEq

/-- One execution of a `StateChangeConf.Refresh` closure, as Go sees it:
either the goroutine panics, or it returns the triple
`(interface{}, string, error)`. -/
inductive RefreshStep where
  | panicked
  | ret (obj : Option ArbitrarySecret) (state : String) (err : Option String)
  deriving Repr, DecidableEq

/-- The fail-state set of the creation poll:
`failStates := map[string]bool{"destroyed": true}`
(resource_ibm_sm_arbitrary_secret.go, line 201). -/
def createPollFailStates (s : String) : Bool := s == "destroyed"

/-- Embedding of the `Refresh` closure of `waitForIbmSmArbitrarySecretCreate`
(resource_ibm_sm_arbitrary_secret.go, lines 192-206), given the triple that
`secretsManagerClient.GetSecret` returned.  The Go code runs the type
assertion `stateObjIntf.(*secretsmanagerv2.ArbitrarySecret)` on line 194,
BEFORE the `err != nil` check on line 195; a single-value type assertion on
a nil interface panics, which the `.panicked` case records. -/
def arbitrarySecretCreateRefresh (g : GetSecretGoResult) : RefreshStep :=
  match g.result with
  | none => .panicked
  | some stateObj =>
    match g.err with
    | some err =>
      if err.requestFailureCode == some 404 then
        .ret none "" (some ("The instance getSecretOptions does not exist anymore: "
          ++ err.msg ++ "\n" ++ sprintResponse g.response))
      else
        .ret none "" (some err.msg)
    | none =>
      if createPollFailStates stateObj.stateDescription then
        .ret (some stateObj) stateObj.stateDescription
          (some ("The instance getSecretOptions failed: <nil>\n" ++ sprintResponse g.response))
      else
        .ret (some stateObj) stateObj.stateDescription none

/-- The configuration fields of a terraform-plugin-sdk
`resource.StateChangeConf` that the embedded code fills in.  Durations are
in seconds. -/
structure StateChangeConf where
  pending : List String
  target : List String
  timeoutSeconds : Nat
  delaySeconds : Nat
  minTimeoutSeconds : Nat
  deriving Repr, DecidableEq

/-- The `StateChangeConf` literal built by `waitForIbmSmArbitrarySecretCreate`
(resource_ibm_sm_arbitrary_secret.go, lines 189-210):
`Pending: ["pre_activation"]`, `Target: ["active"]`,
`Timeout: d.Timeout(schema.TimeoutCreate)` (the caller's create-timeout
setting, a parameter here), `Delay: 0`, `MinTimeout: 5 seconds`. -/
def waitForIbmSmArbitrarySecretCreateConf (createTimeoutSeconds : Nat) : StateChangeConf :=
  { pending := ["pre_activation"]
    target := ["active"]
    timeoutSeconds := createTimeoutSeconds
    delaySeconds := 0
    minTimeoutSeconds := 5 }

/-- Outcome of `StateChangeConf.WaitForState`: the final object on success,
an error (the refresh error, a timeout error, or the SDK's
unexpected-state error) otherwise; `.panicked` propagates a panic of the
refresh closure. -/
inductive WaitOutcome where
  | panicked
  | ok (obj : ArbitrarySecret)
  | timedOut
  | refreshErr (e : String)
  | unexpectedState (s : String)
  deriving Repr, DecidableEq

/-- Modelled from the terraform-plugin-sdk helper
`resource.StateChangeConf.WaitForState` (external library code): starting
after the initial delay, the loop repeatedly invokes `Refresh`; a refresh
error aborts the wait with that error; otherwise, a state in `Target`
succeeds with the refreshed object, a state in `Pending` retries after the
poll interval, and any other state aborts with an unexpected-state error.
Real time is abstracted into `fuel`, the number of refresh attempts the
caller-supplied timeout admits (the poll interval is fixed, so attempts are
proportional to elapsed time); exhausting `fuel` is the timeout error.
`refresh n` is the triple returned by the n-th `GetSecret` call. -/
def waitForState (conf : StateChangeConf) (refresh : Nat → RefreshStep) :
    Nat → Nat → WaitOutcome
  | _, 0 => .timedOut
  | attempt, fuel + 1 =>
    match refresh attempt with
    | .panicked => .panicked
    | .ret obj state err =>
      match err with
      | some e => .refreshErr e
      | none =>
        if state ∈ conf.target then
          match obj with
          | some o => .ok o
          | none => .unexpectedState state
        else if state ∈ conf.pending then
          waitForState conf refresh (attempt + 1) fuel
        else
          .unexpectedState state

/-- Embedding of `waitForIbmSmArbitrarySecretCreate`
(resource_ibm_sm_arbitrary_secret.go, lines 182-213): builds the
`StateChangeConf` above, whose `Refresh` closure wraps the n-th `GetSecret`
result via `arbitrarySecretCreateRefresh`, and runs `WaitForState`.
`getSecret n` is what the n-th `GetSecret` call returns; `fuel` is the
number of attempts the create-timeout admits. -/
def waitForIbmSmArbitrarySecretCreate (createTimeoutSeconds : Nat)
    (getSecret : Nat → GetSecretGoResult) (fuel : Nat) : WaitOutcome :=
  waitForState (waitForIbmSmArbitrarySecretCreateConf createTimeoutSeconds)
    (fun n => arbitrarySecretCreateRefresh (getSecret n)) 0 fuel

/-- The REST SDK methods the two embedded files can invoke. -/
inductive SdkCall where
  | createSecretWithContext
  | getSecret
  | getSecretWithContext
  | updateSecretMetadataWithContext
  | deleteSecretWithContext
  deriving Repr, DecidableEq

/-- A value of an entry of a flattened `rotation` policy block
(`auto_rotate` is a bool, `interval` an int, `unit` a string). -/
inductive PolicyValue where
  | pbool (b : Bool)
  | pint (n : Int)
  | pstr (s : String)
  deriving Repr, DecidableEq

/-- A value passed to `d.Set`, by terraform schema type. -/
inductive FieldValue where
  | str (s : String)
  | int (n : Int)
  | bool (b : Bool)
  | strMap (m : List (String × String))
  | strList (l : List String)
  | policyList (l : List (List (String × PolicyValue)))
  deriving Repr, DecidableEq

/-- Observable effects of one lifecycle-function execution: the SDK calls it
issued in order, the `d.Set` writes it performed in order, the resource id
it left behind (`d.SetId`), the error diagnostic it returned (`none` = nil
diagnostics), and whether it panicked (a Go runtime panic, e.g. a failed
type assertion or an out-of-range index). -/
structure OpResult where
  calls : List SdkCall := []
  writes : List (String × FieldValue) := []
  newId : String
  diag : Option String := none
  panicked : Bool := false
  deriving Repr, DecidableEq

/-- `flex.DateTimeToString` / `DateTimeToRFC3339` (repository helpers defined
outside the two embedded files): render a possibly-nil `*strfmt.DateTime`,
the empty string for nil. -/
def dateTimeToString : Option GoDateTime → String
  | none => ""
  | some t => t.rfc3339

/-- Dereference a possibly-nil `*string` the way terraform's `d.Set`
normalizes it (nil becomes the zero value). -/
def strOr (o : Option String) : String := o.getD ""

/-- `flex.IntValue`: dereference a possibly-nil `*int64`, 0 for nil. -/
def intOr (o : Option Int) : Int := o.getD 0

/-- Dereference a possibly-nil `*bool`, false for nil. -/
def boolOr (o : Option Bool) : Bool := o.getD false

/-- Split a character list at every occurrence of `sep` (no separator found
gives a single piece; a trailing separator gives a trailing empty piece). -/
def splitListOn (sep : Char) : List Char → List (List Char)
  | [] => [[]]
  | c :: cs =>
    if c = sep then [] :: splitListOn sep cs
    else
      match splitListOn sep cs with
      | [] => [[c]]
      | r :: rs => (c :: r) :: rs

/-- Go's `strings.Split(s, "/")`, as the three lifecycle functions use it on
the resource id: the substrings between the slashes, in order. -/
def goSplitSlash (s : String) : List String :=
  (splitListOn '/' s.data).map (fun l => String.mk l)

/-- The `d.Set` writes of the success path of
`resourceIbmSmArbitrarySecretRead` (resource_ibm_sm_arbitrary_secret.go,
lines 246-307), in source order; `custom_metadata` and `labels` are written
only when the corresponding response field is non-nil. -/
def arbitrarySecretReadWrites (region instanceId secretId : String)
    (secret : ArbitrarySecret) : List (String × FieldValue) :=
  [("secret_id", .str secretId),
   ("instance_id", .str instanceId),
   ("region", .str region),
   ("created_by", .str (strOr secret.createdBy)),
   ("created_at", .str (dateTimeToString secret.createdAt)),
   ("crn", .str (strOr secret.crn)),
   ("downloaded", .bool (boolOr secret.downloaded)),
   ("locks_total", .int (intOr secret.locksTotal)),
   ("name", .str (strOr secret.name)),
   ("secret_group_id", .str (strOr secret.secretGroupId)),
   ("secret_type", .str (strOr secret.secretType)),
   ("state", .int (intOr secret.state)),
   ("state_description", .str secret.stateDescription),
   ("updated_at", .str (dateTimeToString secret.updatedAt)),
   ("versions_total", .int (intOr secret.versionsTotal))]
  ++ (match secret.customMetadata with
      | some m => [("custom_metadata", .strMap m)]
      | none => [])
  ++ [("description", .str (strOr secret.description))]
  ++ (match secret.labels with
      | some l => [("labels", .strList l)]
      | none => [])
  ++ [("expiration_date", .str (dateTimeToString secret.expirationDate)),
      ("payload", .str (strOr secret.payload))]

/-- Embedding of `resourceIbmSmArbitrarySecretRead`
(resource_ibm_sm_arbitrary_secret.go, lines 215-310).  `dId` is the current
resource id; `g` is the triple returned by `GetSecretWithContext`.  A
malformed id returns a diagnostic before any SDK call; an error with an
HTTP 404 response clears the id and returns nil diagnostics; any other
error keeps the id and returns a wrapped diagnostic; on success the
resource attributes are written from the response. -/
def resourceIbmSmArbitrarySecretRead (dId : String) (g : GetSecretGoResult) : OpResult :=
  let idParts := goSplitSlash dId
  if h : idParts.length = 3 then
    let region := idParts[0]
    let instanceId := idParts[1]
    let secretId := idParts[2]
    match g.err with
    | some err =>
      match g.response with
      | some resp =>
        if resp.statusCode = 404 then
          { calls := [.getSecretWithContext], newId := "", diag := none }
        else
          { calls := [.getSecretWithContext], newId := dId,
            diag := some ("GetSecretWithContext failed " ++ err.msg ++ "\n"
              ++ sprintResponse g.response) }
      | none =>
        { calls := [.getSecretWithContext], newId := dId,
          diag := some ("GetSecretWithContext failed " ++ err.msg ++ "\n"
            ++ sprintResponse g.response) }
    | none =>
      match g.result with
      | none => { calls := [.getSecretWithContext], newId := dId, panicked := true }
      | some secret =>
        { calls := [.getSecretWithContext], newId := dId,
          writes := arbitrarySecretReadWrites region instanceId secretId secret }
  else
    { newId := dId,
      diag := some ("Wrong format of resource ID. To import a secret use the format "
        ++ "`<region>/<instance_id>/<secret_id>`") }

/-- The SDK's `secretsmanagerv2.SecretMetadataPatch` request model.  It has
no payload field: an arbitrary secret's payload cannot travel in a metadata
patch.  `resourceIbmSmArbitrarySecretUpdate` only ever sets the first four
fields. -/
structure SecretMetadataPatch where
  name : Option String := none
  description : Option String := none
  labels : Option (List String) := none
  customMetadata : Option (List (String × String)) := none
  expirationDate : Option GoDateTime := none
  deriving Repr, DecidableEq

/-- The inputs `resourceIbmSmArbitrarySecretUpdate` reads from the resource
data: for each of the four patchable attributes, whether `d.HasChange`
reports a change, and the current (`d.Get`) value; plus the configured
payload, which Update never reads (it is `ForceNew`). -/
structure ArbitrarySecretUpdateInput where
  nameChanged : Bool := false
  descriptionChanged : Bool := false
  labelsChanged : Bool := false
  customMetadataChanged : Bool := false
  name : String := ""
  description : String := ""
  labels : List String := []
  customMetadata : List (String × String) := []
  payload : String := ""
  deriving Repr, DecidableEq

/-- The `patchVals` struct built by `resourceIbmSmArbitrarySecretUpdate`
(resource_ibm_sm_arbitrary_secret.go, lines 330-352): each of `name`,
`description`, `labels`, `custom_metadata` is put into the patch exactly
when `d.HasChange` reports it changed. -/
def arbitrarySecretUpdatePatchVals (inp : ArbitrarySecretUpdateInput) : SecretMetadataPatch :=
  let patchVals : SecretMetadataPatch := {}
  let patchVals := if inp.nameChanged then { patchVals with name := some inp.name } else patchVals
  let patchVals := if inp.descriptionChanged then
      { patchVals with description := some inp.description } else patchVals
  let patchVals := if inp.labelsChanged then
      { patchVals with labels := some inp.labels } else patchVals
  let patchVals := if inp.customMetadataChanged then
      { patchVals with customMetadata := some inp.customMetadata } else patchVals
  patchVals

/-- The `hasChange` flag of `resourceIbmSmArbitrarySecretUpdate`. -/
def arbitrarySecretUpdateHasChange (inp : ArbitrarySecretUpdateInput) : Bool :=
  inp.nameChanged || inp.descriptionChanged || inp.labelsChanged || inp.customMetadataChanged

/-- Embedding of `resourceIbmSmArbitrarySecretUpdate`
(resource_ibm_sm_arbitrary_secret.go, lines 312-364).  `updateResult` is what
`UpdateSecretMetadataWithContext` would return (consulted only if the PATCH
is actually sent); `readG` is the `GetSecretWithContext` triple for the final
re-read.  The second component of the result is the patch transmitted:
`some patch` exactly when `UpdateSecretMetadataWithContext` was called. -/
def resourceIbmSmArbitrarySecretUpdate (dId : String) (inp : ArbitrarySecretUpdateInput)
    (updateResult : Option GoError × Option DetailedResponse) (readG : GetSecretGoResult) :
    OpResult × Option SecretMetadataPatch :=
  let idParts := goSplitSlash dId
  if idParts.length = 3 then
    if arbitrarySecretUpdateHasChange inp then
      match updateResult.1 with
      | some err =>
        ({ calls := [.updateSecretMetadataWithContext], newId := dId,
           diag := some ("UpdateSecretMetadataWithContext failed " ++ err.msg ++ "\n"
             ++ sprintResponse updateResult.2) },
         some (arbitrarySecretUpdatePatchVals inp))
      | none =>
        let read := resourceIbmSmArbitrarySecretRead dId readG
        ({ read with calls := .updateSecretMetadataWithContext :: read.calls },
         some (arbitrarySecretUpdatePatchVals inp))
    else
      (resourceIbmSmArbitrarySecretRead dId readG, none)
  else
    ({ newId := dId, panicked := true }, none)

/-- Embedding of `resourceIbmSmArbitrarySecretDelete`
(resource_ibm_sm_arbitrary_secret.go, lines 366-391).  `deleteResult` is the
`(response, err)` pair of `DeleteSecretWithContext`; on error the id is
kept and a wrapped diagnostic returned, on success the id is cleared. -/
def resourceIbmSmArbitrarySecretDelete (dId : String)
    (deleteResult : Option GoError × Option DetailedResponse) : OpResult :=
  let idParts := goSplitSlash dId
  if idParts.length = 3 then
    match deleteResult.1 with
    | some err =>
      { calls := [.deleteSecretWithContext], newId := dId,
        diag := some ("DeleteSecretWithContext failed " ++ err.msg ++ "\n"
          ++ sprintResponse deleteResult.2) }
    | none =>
      { calls := [.deleteSecretWithContext], newId := "" }
  else
    { newId := dId, panicked := true }

/-- The number of `Refresh` invocations (each one a `GetSecret` REST call)
that `waitForState` performs before returning. -/
def waitForStateCalls (conf : StateChangeConf) (refresh : Nat → RefreshStep) :
    Nat → Nat → Nat
  | _, 0 => 0
  | attempt, fuel + 1 =>
    match refresh attempt with
    | .panicked => 1
    | .ret _ state err =>
      match err with
      | some _ => 1
      | none =>
        if state ∈ conf.target then 1
        else if state ∈ conf.pending then
          1 + waitForStateCalls conf refresh (attempt + 1) fuel
        else 1

/-- The error string that `WaitForState` produces for each failing outcome
(modelled from the terraform-plugin-sdk helper; the refresh error is
returned as-is, the timeout and unexpected-state errors are the SDK's own
messages). -/
def waitErrString (target : List String) : WaitOutcome → String
  | .refreshErr e => e
  | .timedOut => "timeout while waiting for state to become " ++ String.intercalate ", " target
  | .unexpectedState s =>
    "unexpected state " ++ s ++ ", wanted target " ++ String.intercalate ", " target
  | _ => ""

/-- Embedding of `resourceIbmSmArbitrarySecretCreate`
(resource_ibm_sm_arbitrary_secret.go, lines 145-180).  Inputs: the RFC 3339
parser, the configuration, region and instance id, the current resource id,
the `CreateSecretWithContext` result (on success, the created secret that
line 169 type-asserts to `*ArbitrarySecret`), the stream of `GetSecret`
triples the creation poll consumes together with the attempt budget `fuel`
that the create-timeout admits, and the `GetSecretWithContext` triple for
the final read.  The function builds the prototype (failing before any REST
call on a bad `expiration_date`), issues `CreateSecretWithContext`, sets the
id, polls via `waitForIbmSmArbitrarySecretCreate`, and ends with
`resourceIbmSmArbitrarySecretRead`. -/
def resourceIbmSmArbitrarySecretCreate
    (parseRFC3339 : String → Except String GoDateTime)
    (cfg : ArbitrarySecretConfig) (region instanceId dId : String)
    (createResult : Except (GoError × Option DetailedResponse) ArbitrarySecret)
    (pollGetSecret : Nat → GetSecretGoResult) (fuel : Nat)
    (createTimeoutSeconds : Nat) (readG : GetSecretGoResult) : OpResult :=
  match resourceIbmSmArbitrarySecretMapToArbitrarySecretPrototype parseRFC3339 cfg with
  | .error e => { newId := dId, diag := some e }
  | .ok _ =>
    match createResult with
    | .error (err, resp) =>
      { calls := [.createSecretWithContext], newId := dId,
        diag := some ("CreateSecretWithContext failed " ++ err.msg ++ "\n"
          ++ sprintResponse resp) }
    | .ok secret =>
      let newId := region ++ "/" ++ instanceId ++ "/" ++ secret.id
      let preWrites := [("secret_id", FieldValue.str secret.id)]
      let conf := waitForIbmSmArbitrarySecretCreateConf createTimeoutSeconds
      let refresh := fun n => arbitrarySecretCreateRefresh (pollGetSecret n)
      let pollCalls := List.replicate (waitForStateCalls conf refresh 0 fuel) SdkCall.getSecret
      match waitForState conf refresh 0 fuel with
      | .panicked =>
        { calls := .createSecretWithContext :: pollCalls, writes := preWrites,
          newId := newId, panicked := true }
      | .ok _ =>
        let read := resourceIbmSmArbitrarySecretRead newId readG
        { calls := .createSecretWithContext :: pollCalls ++ read.calls,
          writes := preWrites ++ read.writes,
          newId := read.newId, diag := read.diag, panicked := read.panicked }
      | w =>
        { calls := .createSecretWithContext :: pollCalls, writes := preWrites,
          newId := newId,
          diag := some ("Error waiting for resource IbmSmArbitrarySecret (" ++ newId
            ++ ") to be created: " ++ waitErrString conf.target w) }

/-- One attribute declaration of a terraform schema: its name and the
Required/Optional/Computed/ForceNew/Sensitive flags. -/
structure SchemaEntry where
  name : String
  required : Bool := false
  optional : Bool := false
  computed : Bool := false
  forceNew : Bool := false
  sensitive : Bool := false
  deriving Repr, DecidableEq

/-- The schema map of `ResourceIbmSmArbitrarySecret`
(resource_ibm_sm_arbitrary_secret.go, lines 34-141), in source order. -/
def ResourceIbmSmArbitrarySecretSchema : List SchemaEntry :=
  [{ name := "name", required := true },
   { name := "secret_type", computed := true },
   { name := "payload", required := true, forceNew := true, sensitive := true },
   { name := "custom_metadata", optional := true, computed := true },
   { name := "description", optional := true },
   { name := "expiration_date", optional := true },
   { name := "labels", optional := true, computed := true },
   { name := "secret_group_id", optional := true, computed := true, forceNew := true },
   { name := "version_custom_metadata", optional := true },
   { name := "created_by", computed := true },
   { name := "created_at", computed := true },
   { name := "crn", computed := true },
   { name := "downloaded", computed := true },
   { name := "secret_id", computed := true },
   { name := "locks_total", computed := true },
   { name := "state", computed := true },
   { name := "state_description", computed := true },
   { name := "updated_at", computed := true },
   { name := "versions_total", computed := true }]

/-- The schema map of `DataSourceIbmSmServiceCredentialsSecret`
(data_source_ibm_sm_service_credentials_secret.go, lines 20-349), in source
order.  `credentials` and `source_service` are the nested Computed blocks
declared on lines 167-230 and 231-348. -/
def DataSourceIbmSmServiceCredentialsSecretSchema : List SchemaEntry :=
  [{ name := "secret_id", optional := true, computed := true },
   { name := "created_by", computed := true },
   { name := "created_at", computed := true },
   { name := "crn", computed := true },
   { name := "custom_metadata", optional := true, computed := true },
   { name := "description", optional := true },
   { name := "downloaded", computed := true },
   { name := "labels", optional := true, computed := true },
   { name := "locks_total", computed := true },
   { name := "name", optional := true, computed := true },
   { name := "secret_group_id", optional := true, computed := true, forceNew := true },
   { name := "secret_group_name", optional := true },
   { name := "secret_type", computed := true },
   { name := "state", computed := true },
   { name := "state_description", computed := true },
   { name := "updated_at", computed := true },
   { name := "versions_total", computed := true },
   { name := "version_custom_metadata", optional := true, computed := true },
   { name := "ttl", computed := true },
   { name := "rotation", computed := true },
   { name := "next_rotation_date", computed := true },
   { name := "credentials", computed := true },
   { name := "source_service", computed := true }]

/-- The names of the Computed attributes of the service-credentials
data-source schema. -/
def dataSourceServiceCredentialsComputedAttrs : List String :=
  (DataSourceIbmSmServiceCredentialsSecretSchema.filter (·.computed)).map (·.name)

/-- The SDK's `secretsmanagerv2.CommonRotationPolicy` response model (the
concrete type the data source asserts the `Rotation` field to). -/
structure CommonRotationPolicy where
  autoRotate : Option Bool := none
  interval : Option Int := none
  unit : Option String := none
  deriving Repr, DecidableEq

/-- The fields of the SDK's `secretsmanagerv2.ServiceCredentialsSecret`
response model that the embedded data source reads. -/
structure ServiceCredentialsSecret where
  id : String
  createdBy : Option String := none
  createdAt : Option GoDateTime := none
  crn : Option String := none
  customMetadata : Option (List (String × String)) := none
  description : Option String := none
  downloaded : Option Bool := none
  labels : Option (List String) := none
  locksTotal : Option Int := none
  name : Option String := none
  secretGroupId : Option String := none
  secretType : Option String := none
  state : Option Int := none
  stateDescription : Option String := none
  updatedAt : Option GoDateTime := none
  versionsTotal : Option Int := none
  ttl : Option String := none
  rotation : Option CommonRotationPolicy := none
  nextRotationDate : Option GoDateTime := none
  deriving Repr, DecidableEq

/-- Embedding of `dataSourceIbmSmServiceCredentialsSecretRotationPolicyToMap`
(data_source_ibm_sm_service_credentials_secret.go, lines 461-473): each of
`auto_rotate`, `interval`, `unit` is put into the map exactly when the
corresponding pointer field is non-nil. -/
def dataSourceIbmSmServiceCredentialsSecretRotationPolicyToMap
    (model : CommonRotationPolicy) : List (String × PolicyValue) :=
  (match model.autoRotate with
   | some b => [("auto_rotate", PolicyValue.pbool b)]
   | none => [])
  ++ (match model.interval with
      | some n => [("interval", PolicyValue.pint n)]
      | none => [])
  ++ (match model.unit with
      | some u => [("unit", PolicyValue.pstr u)]
      | none => [])

/-- Embedding of `dataSourceIbmSmServiceCredentialsSecretRead`
(data_source_ibm_sm_service_credentials_secret.go, lines 353-459).
`getResult` is what the repository helper `getSecretByIdOrByName` (defined
outside the embedded file) produced: a diagnostic, or the secret that line
359 type-asserts to `*ServiceCredentialsSecret`.  On success the function
sets the id to `region/instanceId/secretId` and performs the `d.Set` writes
of lines 363-456 in source order; `custom_metadata` and `labels` are
written only when non-nil in the response, `rotation` is always written
(as the empty block list when the response has no rotation policy). -/
def dataSourceIbmSmServiceCredentialsSecretRead
    (getResult : Except String ServiceCredentialsSecret)
    (region instanceId dId : String) : OpResult :=
  match getResult with
  | .error diagError => { newId := dId, diag := some diagError }
  | .ok secret =>
    let newId := region ++ "/" ++ instanceId ++ "/" ++ secret.id
    let writes :=
      [("region", FieldValue.str region),
       ("created_by", FieldValue.str (strOr secret.createdBy)),
       ("created_at", FieldValue.str (dateTimeToString secret.createdAt)),
       ("crn", FieldValue.str (strOr secret.crn))]
      ++ (match secret.customMetadata with
          | some m => [("custom_metadata", FieldValue.strMap m)]
          | none => [])
      ++ [("description", FieldValue.str (strOr secret.description)),
          ("downloaded", FieldValue.bool (boolOr secret.downloaded))]
      ++ (match secret.labels with
          | some l => [("labels", FieldValue.strList l)]
          | none => [])
      ++ [("locks_total", FieldValue.int (intOr secret.locksTotal)),
          ("name", FieldValue.str (strOr secret.name)),
          ("secret_group_id", FieldValue.str (strOr secret.secretGroupId)),
          ("secret_type", FieldValue.str (strOr secret.secretType)),
          ("state", FieldValue.int (intOr secret.state)),
          ("state_description", FieldValue.str (strOr secret.stateDescription)),
          ("updated_at", FieldValue.str (dateTimeToString secret.updatedAt)),
          ("versions_total", FieldValue.int (intOr secret.versionsTotal)),
          ("ttl", FieldValue.str (strOr secret.ttl)),
          ("rotation", FieldValue.policyList
            (match secret.rotation with
             | some r => [dataSourceIbmSmServiceCredentialsSecretRotationPolicyToMap r]
             | none => [])),
          ("next_rotation_date", FieldValue.str (dateTimeToString secret.nextRotationDate))]
    { newId := newId, writes := writes }

/-- Characterization of the prototype mapping as a pure function of the
configuration. -/
theorem mapToPrototype_characterization (parse : String → Except String GoDateTime)
    (d : ArbitrarySecretConfig) :
    resourceIbmSmArbitrarySecretMapToArbitrarySecretPrototype parse d =
      match d.expirationDate with
      | none =>
        .ok
          { secretType := some "arbitrary"
            name := d.name
            payload := d.payload
            customMetadata := d.customMetadata
            description := d.description
            expirationDate := none
            labels := d.labels
            secretGroupId := d.secretGroupId
            versionCustomMetadata := d.versionCustomMetadata }
      | some s =>
        match parse s with
        | .error e => .error ("Failed to get \x22expiration_date\x22. Error: " ++ e)
        | .ok t =>
          .ok
            { secretType := some "arbitrary"
              name := d.name
              payload := d.payload
              customMetadata := d.customMetadata
              description := d.description
              expirationDate := some t
              labels := d.labels
              secretGroupId := d.secretGroupId
              versionCustomMetadata := d.versionCustomMetadata } := by
  rcases d with ⟨n, pl, cm, ds, ex, lb, sg, vm⟩
  cases n <;> cases pl <;> cases cm <;> cases ds <;> cases lb <;> cases sg <;> cases vm <;>
    cases ex <;> rfl

/-- C5: `resourceIbmSmArbitrarySecretMapToArbitrarySecretPrototype` builds
the create-request struct as a pure mapping: `SecretType` is always
`"arbitrary"`, and each of name, payload, custom_metadata, description,
expiration_date (parsed as RFC 3339), labels, secret_group_id and
version_custom_metadata is copied into the prototype if and only if that
field is set in the configuration. -/
theorem claim_C5_prototype_pure_mapping
    (parse : String → Except String GoDateTime) (d : ArbitrarySecretConfig)
    (p : ArbitrarySecretPrototype)
    (h : resourceIbmSmArbitrarySecretMapToArbitrarySecretPrototype parse d = .ok p) :
    p.secretType = some "arbitrary" ∧
    p.name = d.name ∧
    p.payload = d.payload ∧
    p.customMetadata = d.customMetadata ∧
    p.description = d.description ∧
    (d.expirationDate = none → p.expirationDate = none) ∧
    (∀ s, d.expirationDate = some s → ∃ t, parse s = .ok t ∧ p.expirationDate = some t) ∧
    p.labels = d.labels ∧
    p.secretGroupId = d.secretGroupId ∧
    p.versionCustomMetadata = d.versionCustomMetadata := by
  rw [mapToPrototype_characterization] at h
  cases hex : d.expirationDate with
  | none =>
    rw [hex] at h
    simp only [Except.ok.injEq] at h
    subst h
    simp [hex]
  | some s =>
    rw [hex] at h
    cases hp : parse s with
    | error e => simp [hp] at h
    | ok t =>
      simp only [hp, Except.ok.injEq] at h
      subst h
      refine ⟨rfl, rfl, rfl, rfl, rfl, by simp [hex], ?_, rfl, rfl, rfl⟩
      intro u hu
      injection hu with h2
      subst h2
      exact ⟨t, hp, rfl⟩

/-- Concrete input for the C5 witness: a fully-populated configuration. -/
def c5Config : ArbitrarySecretConfig :=
  { name := some "my-secret", payload := some "s3cret", customMetadata := some [("k", "v")],
    description := some "d", expirationDate := some "2030-01-01T00:00:00Z",
    labels := some ["a", "b"], secretGroupId := some "default",
    versionCustomMetadata := some [("vk", "vv")] }

/-- RFC 3339 parser stand-in used by the C5 witness: accepts everything. -/
def c5Parse (s : String) : Except String GoDateTime := .ok ⟨s⟩

/-- The prototype the C5 witness expects. -/
def c5Proto : ArbitrarySecretPrototype :=
  { secretType := some "arbitrary", name := some "my-secret", payload := some "s3cret",
    customMetadata := some [("k", "v")], description := some "d",
    expirationDate := some ⟨"2030-01-01T00:00:00Z"⟩, labels := some ["a", "b"],
    secretGroupId := some "default", versionCustomMetadata := some [("vk", "vv")] }

/-- Witness for C5 at a concrete fully-populated configuration. -/
theorem claim_C5_prototype_pure_mapping_witness :
    resourceIbmSmArbitrarySecretMapToArbitrarySecretPrototype c5Parse c5Config = .ok c5Proto ∧
    (c5Proto.secretType = some "arbitrary" ∧
     c5Proto.name = c5Config.name ∧
     c5Proto.payload = c5Config.payload ∧
     c5Proto.customMetadata = c5Config.customMetadata ∧
     c5Proto.description = c5Config.description ∧
     (c5Config.expirationDate = none → c5Proto.expirationDate = none) ∧
     (∀ s, c5Config.expirationDate = some s →
        ∃ t, c5Parse s = .ok t ∧ c5Proto.expirationDate = some t) ∧
     c5Proto.labels = c5Config.labels ∧
     c5Proto.secretGroupId = c5Config.secretGroupId ∧
     c5Proto.versionCustomMetadata = c5Config.versionCustomMetadata) :=
  ⟨rfl, claim_C5_prototype_pure_mapping c5Parse c5Config c5Proto rfl⟩

/-- C9: if the configured `expiration_date` is set but does not parse as
RFC 3339, `resourceIbmSmArbitrarySecretCreate` returns an error diagnostic
before any REST call is issued: the SDK-call trace is empty, no attribute
is written, and the resource id is unchanged. -/
theorem claim_C9_bad_expiration_atomic
    (parse : String → Except String GoDateTime) (cfg : ArbitrarySecretConfig)
    (region instanceId dId : String)
    (createResult : Except (GoError × Option DetailedResponse) ArbitrarySecret)
    (pollGetSecret : Nat → GetSecretGoResult) (fuel createTimeoutSeconds : Nat)
    (readG : GetSecretGoResult) (s e : String)
    (hexp : cfg.expirationDate = some s) (hparse : parse s = .error e) :
    resourceIbmSmArbitrarySecretCreate parse cfg region instanceId dId createResult
        pollGetSecret fuel createTimeoutSeconds readG =
      { calls := [], writes := [], newId := dId,
        diag := some ("Failed to get \x22expiration_date\x22. Error: " ++ e) } := by
  unfold resourceIbmSmArbitrarySecretCreate
  rw [mapToPrototype_characterization, hexp]
  simp only [hparse]

/-- Concrete input for the C9 witness: a parser that rejects the configured
expiration date. -/
def c9Parse (s : String) : Except String GoDateTime :=
  if s = "not-a-date" then .error ("parsing time \x22" ++ s ++ "\x22 as RFC3339: cannot parse")
  else .ok ⟨s⟩

/-- Concrete configuration for the C9 witness. -/
def c9Config : ArbitrarySecretConfig :=
  { name := some "n", payload := some "p", expirationDate := some "not-a-date" }

/-- Witness for C9 at a concrete configuration with a malformed
`expiration_date`. -/
theorem claim_C9_bad_expiration_atomic_witness :
    c9Config.expirationDate = some "not-a-date" ∧
    c9Parse "not-a-date" = .error "parsing time \x22not-a-date\x22 as RFC3339: cannot parse" ∧
    resourceIbmSmArbitrarySecretCreate c9Parse c9Config "us-south" "inst" "old-id"
        (.error ({ msg := "unused" }, none)) (fun _ => { result := none }) 3 600
        { result := none } =
      { calls := [], writes := [], newId := "old-id",
        diag := some ("Failed to get \x22expiration_date\x22. Error: "
          ++ "parsing time \x22not-a-date\x22 as RFC3339: cannot parse") } :=
  ⟨rfl, rfl,
    claim_C9_bad_expiration_atomic c9Parse c9Config "us-south" "inst" "old-id"
      (.error ({ msg := "unused" }, none)) (fun _ => { result := none }) 3 600
      { result := none } "not-a-date"
      "parsing time \x22not-a-date\x22 as RFC3339: cannot parse" rfl rfl⟩

/-- One unfolding step of the wait loop. -/
theorem waitForState_succ (conf : StateChangeConf) (refresh : Nat → RefreshStep)
    (a fuel : Nat) :
    waitForState conf refresh a (fuel + 1) =
      match refresh a with
      | .panicked => .panicked
      | .ret obj state err =>
        match err with
        | some e => .refreshErr e
        | none =>
          if state ∈ conf.target then
            match obj with
            | some o => .ok o
            | none => .unexpectedState state
          else if state ∈ conf.pending then waitForState conf refresh (a + 1) fuel
          else .unexpectedState state := rfl

/-- One unfolding step of the wait loop's call counter. -/
theorem waitForStateCalls_succ (conf : StateChangeConf) (refresh : Nat → RefreshStep)
    (a fuel : Nat) :
    waitForStateCalls conf refresh a (fuel + 1) =
      match refresh a with
      | .panicked => 1
      | .ret _ state err =>
        match err with
        | some _ => 1
        | none =>
          if state ∈ conf.target then 1
          else if state ∈ conf.pending then 1 + waitForStateCalls conf refresh (a + 1) fuel
          else 1 := rfl

/-- A successful `GetSecret` whose state is not a fail state refreshes to the
plain `(object, state, nil)` triple. -/
theorem refresh_of_success (o : ArbitrarySecret)
    (h : createPollFailStates o.stateDescription = false) :
    arbitrarySecretCreateRefresh { result := some o } =
      .ret (some o) o.stateDescription none := by
  simp [arbitrarySecretCreateRefresh, h]

/-- Neither polled state is a fail state. -/
theorem pending_or_active_not_fail (st : String)
    (h : st = "pre_activation" ∨ st = "active") : createPollFailStates st = false := by
  rcases h with h | h <;> rw [h] <;> decide

/-- If every refresh within the attempt budget reports the pending state, the
wait times out. -/
theorem waitForState_all_pending_timeout (t : Nat) (refresh : Nat → RefreshStep)
    (s : Nat → ArbitrarySecret) :
    ∀ fuel a,
      (∀ k, k < fuel → refresh (a + k) = .ret (some (s (a + k))) "pre_activation" none) →
      waitForState (waitForIbmSmArbitrarySecretCreateConf t) refresh a fuel = .timedOut := by
  intro fuel
  induction fuel with
  | zero => intro a _; rfl
  | succ n ih =>
    intro a h
    have h0 := h 0 (Nat.succ_pos n)
    rw [Nat.add_zero] at h0
    rw [waitForState_succ, h0]
    simp only [waitForIbmSmArbitrarySecretCreateConf]
    rw [if_neg (by decide), if_pos (by decide)]
    exact ih (a + 1) fun k hk => by
      have hk1 := h (k + 1) (Nat.succ_lt_succ hk)
      rwa [show a + (k + 1) = a + 1 + k by omega] at hk1

/-- If some refresh within the budget reports the target state while earlier
refreshes report pending or target states, the wait succeeds with an object
in the target state. -/
theorem waitForState_reaches_target (t : Nat) (refresh : Nat → RefreshStep)
    (s : Nat → ArbitrarySecret)
    (hgood : ∀ n, refresh n = .ret (some (s n)) (s n).stateDescription none)
    (hstates : ∀ n, (s n).stateDescription = "pre_activation" ∨ (s n).stateDescription = "active") :
    ∀ fuel a,
      (∃ k, k < fuel ∧ (s (a + k)).stateDescription = "active") →
      ∃ o, waitForState (waitForIbmSmArbitrarySecretCreateConf t) refresh a fuel = .ok o ∧
        o.stateDescription = "active" := by
  intro fuel
  induction fuel with
  | zero => rintro a ⟨k, hk, _⟩; omega
  | succ n ih =>
    rintro a ⟨k, hk, hact⟩
    rw [waitForState_succ, hgood a]
    simp only [waitForIbmSmArbitrarySecretCreateConf]
    rcases hstates a with hpre | hax
    · rw [hpre, if_neg (by decide), if_pos (by decide)]
      cases k with
      | zero =>
        rw [Nat.add_zero] at hact
        rw [hpre] at hact
        exact absurd hact (by decide)
      | succ k1 =>
        exact ih (a + 1) ⟨k1, by omega, by rwa [show a + 1 + k1 = a + (k1 + 1) by omega]⟩
    · rw [hax, if_pos (by decide)]
      exact ⟨s a, rfl, hax⟩

/-- A wait over pending/target states succeeds only with an object in the
target state. -/
theorem waitForState_ok_is_target (t : Nat) (refresh : Nat → RefreshStep)
    (s : Nat → ArbitrarySecret)
    (hgood : ∀ n, refresh n = .ret (some (s n)) (s n).stateDescription none)
    (hstates : ∀ n, (s n).stateDescription = "pre_activation" ∨ (s n).stateDescription = "active") :
    ∀ fuel a o,
      waitForState (waitForIbmSmArbitrarySecretCreateConf t) refresh a fuel = .ok o →
      o.stateDescription = "active" ∧ ∃ k, k < fuel ∧ (s (a + k)).stateDescription = "active" := by
  intro fuel
  induction fuel with
  | zero => intro a o h; exact absurd h (by simp [waitForState])
  | succ n ih =>
    intro a o h
    rw [waitForState_succ, hgood a] at h
    simp only [waitForIbmSmArbitrarySecretCreateConf] at h
    rcases hstates a with hpre | hax
    · rw [hpre, if_neg (by decide), if_pos (by decide)] at h
      obtain ⟨ho, k, hk, hact⟩ := ih (a + 1) o h
      exact ⟨ho, k + 1, by omega, by rwa [show a + (k + 1) = a + 1 + k by omega]⟩
    · rw [hax, if_pos (by decide)] at h
      injection h with h2
      subst h2
      exact ⟨hax, 0, Nat.succ_pos n, by rwa [Nat.add_zero]⟩

/-- C1: after a successful CreateSecret call,
`waitForIbmSmArbitrarySecretCreate` polls with fixed delay 0, minimum
interval 5 seconds and the caller's create-timeout; over streams of
successful `GetSecret` reads whose `state_description` is the pending or
the target value, the wait succeeds exactly when the status reaches
`"active"` within the attempt budget, and times out when it stays
`"pre_activation"` throughout.  (Real time is abstracted into `fuel`, the
number of poll attempts the caller-supplied timeout admits.) -/
theorem claim_C1_creation_poll (createTimeoutSeconds fuel : Nat) (s : Nat → ArbitrarySecret)
    (hstates : ∀ n, (s n).stateDescription = "pre_activation" ∨
      (s n).stateDescription = "active") :
    (waitForIbmSmArbitrarySecretCreateConf createTimeoutSeconds).pending = ["pre_activation"] ∧
    (waitForIbmSmArbitrarySecretCreateConf createTimeoutSeconds).target = ["active"] ∧
    (waitForIbmSmArbitrarySecretCreateConf createTimeoutSeconds).delaySeconds = 0 ∧
    (waitForIbmSmArbitrarySecretCreateConf createTimeoutSeconds).minTimeoutSeconds = 5 ∧
    (waitForIbmSmArbitrarySecretCreateConf createTimeoutSeconds).timeoutSeconds
      = createTimeoutSeconds ∧
    ((∃ k, k < fuel ∧ (s k).stateDescription = "active") ↔
      (∃ o, waitForIbmSmArbitrarySecretCreate createTimeoutSeconds
          (fun n => { result := some (s n) }) fuel = .ok o ∧ o.stateDescription = "active")) ∧
    ((∀ k, k < fuel → (s k).stateDescription = "pre_activation") →
      waitForIbmSmArbitrarySecretCreate createTimeoutSeconds
        (fun n => { result := some (s n) }) fuel = .timedOut) := by
  have hgood : ∀ n, arbitrarySecretCreateRefresh ({ result := some (s n) } : GetSecretGoResult)
      = .ret (some (s n)) (s n).stateDescription none := fun n =>
    refresh_of_success (s n) (pending_or_active_not_fail _ (hstates n))
  refine ⟨rfl, rfl, rfl, rfl, rfl, ?_, ?_⟩
  · constructor
    · rintro ⟨k, hk, hact⟩
      obtain ⟨o, ho, hoa⟩ := waitForState_reaches_target createTimeoutSeconds _ s hgood hstates
        fuel 0 ⟨k, hk, by simpa using hact⟩
      exact ⟨o, ho, hoa⟩
    · rintro ⟨o, ho, _⟩
      obtain ⟨_, k, hk, hact⟩ := waitForState_ok_is_target createTimeoutSeconds _ s hgood hstates
        fuel 0 o ho
      exact ⟨k, hk, by simpa using hact⟩
  · intro hall
    exact waitForState_all_pending_timeout createTimeoutSeconds _ s fuel 0 fun k hk => by
      rw [hgood (0 + k), Nat.zero_add, hall k hk]

/-- Stream of polled secrets for the C1 witness: pending on the first read,
active afterwards. -/
def c1Stream (n : Nat) : ArbitrarySecret :=
  if n = 0 then { id := "sid", stateDescription := "pre_activation" }
  else { id := "sid", stateDescription := "active" }

/-- Witness for C1 on a concrete stream that transitions to the target state
on the second poll. -/
theorem claim_C1_creation_poll_witness :
    (∀ n, (c1Stream n).stateDescription = "pre_activation" ∨
      (c1Stream n).stateDescription = "active") ∧
    ((∃ k, k < 3 ∧ (c1Stream k).stateDescription = "active") ↔
      (∃ o, waitForIbmSmArbitrarySecretCreate 600
          (fun n => { result := some (c1Stream n) }) 3 = .ok o ∧
        o.stateDescription = "active")) := by
  have hs : ∀ n, (c1Stream n).stateDescription = "pre_activation" ∨
      (c1Stream n).stateDescription = "active" := fun n => by
    by_cases h : n = 0 <;> simp [c1Stream, h]
  exact ⟨hs, (claim_C1_creation_poll 600 3 c1Stream hs).2.2.2.2.2.1⟩

/-- C2: during the creation poll, a fail-state `state_description` (the fail
set is exactly `{"destroyed"}`) makes the refresh return an error, the wait
terminate with that error on the very first attempt, and
`resourceIbmSmArbitrarySecretCreate` return a terminal diagnostic after a
single poll call. -/
theorem claim_C2_fail_state_terminal
    (g : GetSecretGoResult) (stateObj : ArbitrarySecret)
    (hres : g.result = some stateObj) (herr : g.err = none)
    (hdes : stateObj.stateDescription = "destroyed")
    (stream : Nat → GetSecretGoResult) (hstream : stream 0 = g)
    (fuel m : Nat) (hfuel : fuel = m + 1)
    (parse : String → Except String GoDateTime) (cfg : ArbitrarySecretConfig)
    (proto : ArbitrarySecretPrototype)
    (hproto : resourceIbmSmArbitrarySecretMapToArbitrarySecretPrototype parse cfg = .ok proto)
    (region instanceId dId : String) (secret : ArbitrarySecret)
    (createTimeoutSeconds : Nat) (readG : GetSecretGoResult) :
    (∀ st, createPollFailStates st = true ↔ st = "destroyed") ∧
    arbitrarySecretCreateRefresh g =
      .ret (some stateObj) "destroyed"
        (some ("The instance getSecretOptions failed: <nil>\n" ++ sprintResponse g.response)) ∧
    waitForIbmSmArbitrarySecretCreate createTimeoutSeconds stream fuel =
      .refreshErr ("The instance getSecretOptions failed: <nil>\n" ++ sprintResponse g.response) ∧
    resourceIbmSmArbitrarySecretCreate parse cfg region instanceId dId (.ok secret)
        stream fuel createTimeoutSeconds readG =
      { calls := [.createSecretWithContext, .getSecret],
        writes := [("secret_id", .str secret.id)],
        newId := region ++ "/" ++ instanceId ++ "/" ++ secret.id,
        diag := some ("Error waiting for resource IbmSmArbitrarySecret ("
          ++ (region ++ "/" ++ instanceId ++ "/" ++ secret.id)
          ++ ") to be created: "
          ++ ("The instance getSecretOptions failed: <nil>\n" ++ sprintResponse g.response)) } := by
  subst hfuel
  have hrefresh : arbitrarySecretCreateRefresh g =
      .ret (some stateObj) "destroyed"
        (some ("The instance getSecretOptions failed: <nil>\n" ++ sprintResponse g.response)) := by
    rcases g with ⟨gres, gresp, gerr⟩
    simp only at hres herr
    subst hres
    subst herr
    simp [arbitrarySecretCreateRefresh, sprintResponse, hdes, createPollFailStates]
  have hwait : ∀ tt, waitForState (waitForIbmSmArbitrarySecretCreateConf tt)
      (fun n => arbitrarySecretCreateRefresh (stream n)) 0 (m + 1) =
      .refreshErr ("The instance getSecretOptions failed: <nil>\n" ++ sprintResponse g.response) := by
    intro tt
    simp only [waitForState_succ, hstream, hrefresh]
  have hcalls : ∀ tt, waitForStateCalls (waitForIbmSmArbitrarySecretCreateConf tt)
      (fun n => arbitrarySecretCreateRefresh (stream n)) 0 (m + 1) = 1 := by
    intro tt
    simp only [waitForStateCalls_succ, hstream, hrefresh]
  refine ⟨fun st => by simp [createPollFailStates], hrefresh, hwait createTimeoutSeconds, ?_⟩
  unfold resourceIbmSmArbitrarySecretCreate
  rw [hproto]
  simp only [hwait createTimeoutSeconds, hcalls createTimeoutSeconds, waitErrString,
    List.replicate, List.nil_append]

/-- Concrete destroyed-state poll response for the C2 witness. -/
def c2Destroyed : GetSecretGoResult :=
  { result := some { id := "sid", stateDescription := "destroyed" },
    response := some { statusCode := 200, rendered := "resp" } }

/-- Witness for C2 on a concrete stream whose first poll reports the
destroyed state. -/
theorem claim_C2_fail_state_terminal_witness :
    c2Destroyed.result = some { id := "sid", stateDescription := "destroyed" } ∧
    c2Destroyed.err = none ∧
    resourceIbmSmArbitrarySecretMapToArbitrarySecretPrototype c5Parse c5Config = .ok c5Proto ∧
    resourceIbmSmArbitrarySecretCreate c5Parse c5Config "us-south" "inst" ""
        (.ok { id := "nid", stateDescription := "pre_activation" })
        (fun _ => c2Destroyed) 1 600 { result := none } =
      { calls := [.createSecretWithContext, .getSecret],
        writes := [("secret_id", .str "nid")],
        newId := "us-south" ++ "/" ++ "inst" ++ "/" ++ "nid",
        diag := some ("Error waiting for resource IbmSmArbitrarySecret ("
          ++ ("us-south" ++ "/" ++ "inst" ++ "/" ++ "nid")
          ++ ") to be created: "
          ++ ("The instance getSecretOptions failed: <nil>\n"
            ++ sprintResponse c2Destroyed.response)) } :=
  ⟨rfl, rfl, rfl,
    (claim_C2_fail_state_terminal c2Destroyed { id := "sid", stateDescription := "destroyed" }
      rfl rfl rfl (fun _ => c2Destroyed) rfl 1 0 rfl c5Parse c5Config c5Proto rfl
      "us-south" "inst" "" { id := "nid", stateDescription := "pre_activation" } 600
      { result := none }).2.2.2⟩

/-- A `GetSecret` failure triple: nil result, non-404 response, non-nil
error — exactly what the SDK returns when the service reports a 500. -/
def c8GetSecretFailure : GetSecretGoResult :=
  { result := none, response := some { statusCode := 500, rendered := "500 response" },
    err := some { msg := "Internal server error" } }

/-- C8 is violated by the code: the refresh closure runs the type assertion
`stateObjIntf.(*secretsmanagerv2.ArbitrarySecret)` (line 194) before the
`err != nil` check (line 195), so when `GetSecret` fails — returning a nil
`SecretIntf` — the single-value assertion on a nil interface panics instead
of reaching the error-handling branches; the panic propagates out of the
wait.  This theorem evaluates the embedded code at such a failing input. -/
theorem claim_C8_refresh_nil_assert_panics :
    arbitrarySecretCreateRefresh c8GetSecretFailure = .panicked ∧
    waitForIbmSmArbitrarySecretCreate 600 (fun _ => c8GetSecretFailure) 5 = .panicked :=
  ⟨rfl, rfl⟩

/-- A failed read with a 404 response clears the id and returns nil
diagnostics. -/
theorem read_on_404 (dId : String) (h3 : (goSplitSlash dId).length = 3)
    (g : GetSecretGoResult) (err : GoError) (herr : g.err = some err)
    (h404 : ∃ resp, g.response = some resp ∧ resp.statusCode = 404) :
    resourceIbmSmArbitrarySecretRead dId g =
      { calls := [.getSecretWithContext], newId := "", diag := none } := by
  obtain ⟨resp, hresp, h4⟩ := h404
  unfold resourceIbmSmArbitrarySecretRead
  rw [dif_pos h3]
  simp only [herr, hresp, h4, if_pos]

/-- A failed read without a 404 response keeps the id and returns the
wrapped diagnostic. -/
theorem read_on_other_error (dId : String) (h3 : (goSplitSlash dId).length = 3)
    (g : GetSecretGoResult) (err : GoError) (herr : g.err = some err)
    (hne : ∀ resp, g.response = some resp → resp.statusCode ≠ 404) :
    resourceIbmSmArbitrarySecretRead dId g =
      { calls := [.getSecretWithContext], newId := dId,
        diag := some ("GetSecretWithContext failed " ++ err.msg ++ "\n"
          ++ sprintResponse g.response) } := by
  unfold resourceIbmSmArbitrarySecretRead
  rw [dif_pos h3]
  cases hresp : g.response with
  | none => simp [herr, hresp]
  | some resp => simp [herr, hresp, hne resp hresp]

/-- C3: on a read with a well-formed id, a `GetSecretWithContext` error with
an HTTP 404 response clears the resource id and returns nil diagnostics,
while any other error keeps the id and returns a wrapped error
diagnostic. -/
theorem claim_C3_read_404_clears_state (dId : String) (h3 : (goSplitSlash dId).length = 3)
    (g : GetSecretGoResult) (err : GoError) (herr : g.err = some err) :
    ((∃ resp, g.response = some resp ∧ resp.statusCode = 404) →
      resourceIbmSmArbitrarySecretRead dId g =
        { calls := [.getSecretWithContext], newId := "", diag := none }) ∧
    ((∀ resp, g.response = some resp → resp.statusCode ≠ 404) →
      resourceIbmSmArbitrarySecretRead dId g =
        { calls := [.getSecretWithContext], newId := dId,
          diag := some ("GetSecretWithContext failed " ++ err.msg ++ "\n"
            ++ sprintResponse g.response) }) :=
  ⟨read_on_404 dId h3 g err herr, read_on_other_error dId h3 g err herr⟩

/-- A 404 `GetSecretWithContext` failure triple for the C3 witness. -/
def c3Get404 : GetSecretGoResult :=
  { result := none, response := some { statusCode := 404, rendered := "nf" },
    err := some { msg := "Not Found" } }

/-- Witness for C3: a concrete 404 read clears the id and returns nil
diagnostics. -/
theorem claim_C3_read_404_clears_state_witness :
    (goSplitSlash "us-south/inst/sid").length = 3 ∧
    c3Get404.err = some { msg := "Not Found" } ∧
    resourceIbmSmArbitrarySecretRead "us-south/inst/sid" c3Get404 =
      { calls := [.getSecretWithContext], newId := "", diag := none } :=
  ⟨rfl, rfl,
    (claim_C3_read_404_clears_state "us-south/inst/sid" rfl c3Get404
        { msg := "Not Found" } rfl).1
      ⟨{ statusCode := 404, rendered := "nf" }, rfl, rfl⟩⟩

/-- On a well-formed id, a read issues exactly one SDK call. -/
theorem read_calls_single (dId : String) (g : GetSecretGoResult)
    (h3 : (goSplitSlash dId).length = 3) :
    (resourceIbmSmArbitrarySecretRead dId g).calls = [.getSecretWithContext] := by
  unfold resourceIbmSmArbitrarySecretRead
  rw [dif_pos h3]
  rcases g with ⟨gr, gresp, ge⟩
  cases ge with
  | none => cases gr <;> simp
  | some e =>
    cases gresp with
    | none => simp
    | some r => by_cases h : r.statusCode = 404 <;> simp [h]

/-- The input that falsifies C6 as stated: a failed `GetSecretWithContext`
call on Read whose response is a 404. -/
def c6Get404 : GetSecretGoResult :=
  { result := none, response := some { statusCode := 404, rendered := "404 not found" },
    err := some { msg := "secret not found" } }

/-- C6 as stated is false on the code: a `GetSecretWithContext` failure on
Read is a failing REST-client call, yet when its response is a 404 the
operation returns nil diagnostics (after clearing the id) instead of an
error diagnostic wrapping the underlying error. -/
theorem claim_C6_counterexample_read_404_nil_diag :
    c6Get404.err = some { msg := "secret not found" } ∧
    resourceIbmSmArbitrarySecretRead "eu-de/inst2/sid2" c6Get404 =
      { calls := [.getSecretWithContext], newId := "", diag := none } :=
  ⟨rfl, rfl⟩

/-- C6 (amended): every failing REST call in the Create, Read, Update,
Delete lifecycle functions yields a diagnostic wrapping the underlying
error with the static context string naming the failed SDK call — except a
`GetSecretWithContext` failure on Read whose response is a 404, which
clears the resource id and returns nil diagnostics. -/
theorem claim_C6_amended_static_context_wrapping
    (parse : String → Except String GoDateTime) (cfg : ArbitrarySecretConfig)
    (proto : ArbitrarySecretPrototype)
    (hproto : resourceIbmSmArbitrarySecretMapToArbitrarySecretPrototype parse cfg = .ok proto)
    (region instanceId dId : String) (h3 : (goSplitSlash dId).length = 3)
    (err : GoError) (resp : Option DetailedResponse)
    (stream : Nat → GetSecretGoResult) (fuel createTimeoutSeconds : Nat)
    (readG readG2 : GetSecretGoResult) (inp : ArbitrarySecretUpdateInput)
    (hchange : arbitrarySecretUpdateHasChange inp = true) :
    (resourceIbmSmArbitrarySecretCreate parse cfg region instanceId dId (.error (err, resp))
        stream fuel createTimeoutSeconds readG).diag =
      some ("CreateSecretWithContext failed " ++ err.msg ++ "\n" ++ sprintResponse resp) ∧
    ((∀ r, resp = some r → r.statusCode ≠ 404) →
      (resourceIbmSmArbitrarySecretRead dId
          { result := none, response := resp, err := some err }).diag =
        some ("GetSecretWithContext failed " ++ err.msg ++ "\n" ++ sprintResponse resp)) ∧
    ((∃ r, resp = some r ∧ r.statusCode = 404) →
      resourceIbmSmArbitrarySecretRead dId
          { result := none, response := resp, err := some err } =
        { calls := [.getSecretWithContext], newId := "", diag := none }) ∧
    ((resourceIbmSmArbitrarySecretUpdate dId inp (some err, resp) readG2).1).diag =
      some ("UpdateSecretMetadataWithContext failed " ++ err.msg ++ "\n" ++ sprintResponse resp) ∧
    (resourceIbmSmArbitrarySecretDelete dId (some err, resp)).diag =
      some ("DeleteSecretWithContext failed " ++ err.msg ++ "\n" ++ sprintResponse resp) := by
  refine ⟨?_, ?_, ?_, ?_, ?_⟩
  · unfold resourceIbmSmArbitrarySecretCreate
    rw [hproto]
  · intro hne
    rw [read_on_other_error dId h3 { result := none, response := resp, err := some err }
      err rfl hne]
  · intro h404
    exact read_on_404 dId h3 { result := none, response := resp, err := some err }
      err rfl h404
  · unfold resourceIbmSmArbitrarySecretUpdate
    rw [if_pos h3, if_pos (by simp [hchange])]
  · unfold resourceIbmSmArbitrarySecretDelete
    rw [if_pos h3]

/-- Witness for the amended C6: a concrete 500 error through the Delete
lifecycle function. -/
theorem claim_C6_amended_static_context_wrapping_witness :
    resourceIbmSmArbitrarySecretMapToArbitrarySecretPrototype c5Parse c5Config = .ok c5Proto ∧
    (goSplitSlash "us-south/inst/sid").length = 3 ∧
    arbitrarySecretUpdateHasChange { nameChanged := true, name := "n2" } = true ∧
    (resourceIbmSmArbitrarySecretDelete "us-south/inst/sid"
        (some { msg := "boom" }, some { statusCode := 500, rendered := "r5" })).diag =
      some ("DeleteSecretWithContext failed " ++ GoError.msg { msg := "boom" } ++ "\n"
        ++ sprintResponse (some { statusCode := 500, rendered := "r5" })) :=
  ⟨rfl, rfl, rfl,
    (claim_C6_amended_static_context_wrapping c5Parse c5Config c5Proto rfl "us-south" "inst"
        "us-south/inst/sid" rfl { msg := "boom" }
        (some { statusCode := 500, rendered := "r5" })
        (fun _ => { result := none }) 1 600 { result := none } { result := none }
        { nameChanged := true, name := "n2" } rfl).2.2.2.2⟩

/-- The input that falsifies C7 as stated: a failed `GetSecretWithContext`
whose response is a 404. -/
def c7Get404 : GetSecretGoResult :=
  { result := none, response := some { statusCode := 404, rendered := "nf" },
    err := some { msg := "not found" } }

/-- C7 as stated is false on the code: on a read whose `GetSecretWithContext`
call fails with a 404 response, the function indeed issues no further SDK
call, but it returns nil diagnostics (after clearing the id) rather than a
diagnostic, contradicting "the function returns a diagnostic on the first
error". -/
theorem claim_C7_counterexample_read_404_no_diag :
    c7Get404.err = some { msg := "not found" } ∧
    resourceIbmSmArbitrarySecretRead "us-south/inst/sid" c7Get404 =
      { calls := [.getSecretWithContext], newId := "", diag := none } :=
  ⟨rfl, rfl⟩

/-- C7 (amended): outside the creation poll no REST call is ever retried —
in each lifecycle function a failed SDK call is the last SDK call of the
operation and the function returns immediately, with an error diagnostic in
every case except a 404 on read, which clears the id and returns nil
diagnostics. -/
theorem claim_C7_amended_no_retry
    (parse : String → Except String GoDateTime) (cfg : ArbitrarySecretConfig)
    (proto : ArbitrarySecretPrototype)
    (hproto : resourceIbmSmArbitrarySecretMapToArbitrarySecretPrototype parse cfg = .ok proto)
    (region instanceId dId : String) (h3 : (goSplitSlash dId).length = 3)
    (err : GoError) (resp : Option DetailedResponse)
    (stream : Nat → GetSecretGoResult) (fuel createTimeoutSeconds : Nat)
    (readG readG2 : GetSecretGoResult) (inp : ArbitrarySecretUpdateInput)
    (hchange : arbitrarySecretUpdateHasChange inp = true) :
    ((resourceIbmSmArbitrarySecretCreate parse cfg region instanceId dId (.error (err, resp))
        stream fuel createTimeoutSeconds readG).calls = [.createSecretWithContext] ∧
      (resourceIbmSmArbitrarySecretCreate parse cfg region instanceId dId (.error (err, resp))
        stream fuel createTimeoutSeconds readG).diag.isSome = true) ∧
    (∀ secret : ArbitrarySecret,
      (∀ o, waitForIbmSmArbitrarySecretCreate createTimeoutSeconds stream fuel ≠ .ok o) →
      waitForIbmSmArbitrarySecretCreate createTimeoutSeconds stream fuel ≠ .panicked →
      ∃ n, (resourceIbmSmArbitrarySecretCreate parse cfg region instanceId dId (.ok secret)
          stream fuel createTimeoutSeconds readG).calls =
            .createSecretWithContext :: List.replicate n .getSecret ∧
        (resourceIbmSmArbitrarySecretCreate parse cfg region instanceId dId (.ok secret)
          stream fuel createTimeoutSeconds readG).diag.isSome = true) ∧
    ((resourceIbmSmArbitrarySecretRead dId
        { result := none, response := resp, err := some err }).calls
          = [.getSecretWithContext] ∧
      ((∀ r, resp = some r → r.statusCode ≠ 404) →
        (resourceIbmSmArbitrarySecretRead dId
          { result := none, response := resp, err := some err }).diag.isSome = true) ∧
      ((∃ r, resp = some r ∧ r.statusCode = 404) →
        (resourceIbmSmArbitrarySecretRead dId
            { result := none, response := resp, err := some err }).newId = "" ∧
          (resourceIbmSmArbitrarySecretRead dId
            { result := none, response := resp, err := some err }).diag = none)) ∧
    ((resourceIbmSmArbitrarySecretUpdate dId inp (some err, resp) readG2).1.calls
        = [.updateSecretMetadataWithContext] ∧
      (resourceIbmSmArbitrarySecretUpdate dId inp (some err, resp) readG2).1.diag.isSome
        = true) ∧
    ((resourceIbmSmArbitrarySecretDelete dId (some err, resp)).calls
        = [.deleteSecretWithContext] ∧
      (resourceIbmSmArbitrarySecretDelete dId (some err, resp)).diag.isSome = true) := by
  refine ⟨?_, ?_, ?_, ?_, ?_⟩
  · unfold resourceIbmSmArbitrarySecretCreate
    rw [hproto]
    exact ⟨rfl, rfl⟩
  · intro secret hnok hnp
    unfold resourceIbmSmArbitrarySecretCreate
    rw [hproto]
    cases hw : waitForState (waitForIbmSmArbitrarySecretCreateConf createTimeoutSeconds)
        (fun n => arbitrarySecretCreateRefresh (stream n)) 0 fuel with
    | panicked => exact absurd hw hnp
    | ok o => exact absurd hw (hnok o)
    | timedOut =>
      exact ⟨waitForStateCalls (waitForIbmSmArbitrarySecretCreateConf createTimeoutSeconds)
        (fun n => arbitrarySecretCreateRefresh (stream n)) 0 fuel, by simp [hw], by simp [hw]⟩
    | refreshErr e =>
      exact ⟨waitForStateCalls (waitForIbmSmArbitrarySecretCreateConf createTimeoutSeconds)
        (fun n => arbitrarySecretCreateRefresh (stream n)) 0 fuel, by simp [hw], by simp [hw]⟩
    | unexpectedState st =>
      exact ⟨waitForStateCalls (waitForIbmSmArbitrarySecretCreateConf createTimeoutSeconds)
        (fun n => arbitrarySecretCreateRefresh (stream n)) 0 fuel, by simp [hw], by simp [hw]⟩
  · refine ⟨read_calls_single dId _ h3, ?_, ?_⟩
    · intro hne
      have := read_on_other_error dId h3
        { result := none, response := resp, err := some err } err rfl hne
      simp [this]
    · rintro ⟨r, hr, h404⟩
      have := read_on_404 dId h3
        { result := none, response := resp, err := some err } err rfl ⟨r, hr, h404⟩
      rw [this]
      exact ⟨rfl, rfl⟩
  · unfold resourceIbmSmArbitrarySecretUpdate
    rw [if_pos h3, if_pos (by simp [hchange])]
    exact ⟨rfl, rfl⟩
  · unfold resourceIbmSmArbitrarySecretDelete
    rw [if_pos h3]
    exact ⟨rfl, rfl⟩

/-- Witness for the amended C7 at concrete failing inputs. -/
theorem claim_C7_amended_no_retry_witness :
    resourceIbmSmArbitrarySecretMapToArbitrarySecretPrototype c5Parse c5Config = .ok c5Proto ∧
    (goSplitSlash "us-south/inst/sid").length = 3 ∧
    arbitrarySecretUpdateHasChange { descriptionChanged := true, description := "d2" } = true ∧
    (resourceIbmSmArbitrarySecretCreate c5Parse c5Config "us-south" "inst" "us-south/inst/sid"
        (.error ({ msg := "boom" }, none)) (fun _ => { result := none }) 1 600
        { result := none }).calls = [.createSecretWithContext] :=
  ⟨rfl, rfl, rfl,
    (claim_C7_amended_no_retry c5Parse c5Config c5Proto rfl "us-south" "inst"
        "us-south/inst/sid" rfl { msg := "boom" } none (fun _ => { result := none }) 1 600
        { result := none } { result := none }
        { descriptionChanged := true, description := "d2" } rfl).1.1⟩

/-- The patch struct is exactly the changed fields among the four patchable
attributes. -/
theorem patchVals_characterization (inp : ArbitrarySecretUpdateInput) :
    arbitrarySecretUpdatePatchVals inp =
      { name := if inp.nameChanged then some inp.name else none
        description := if inp.descriptionChanged then some inp.description else none
        labels := if inp.labelsChanged then some inp.labels else none
        customMetadata := if inp.customMetadataChanged then some inp.customMetadata else none
        expirationDate := none } := by
  rcases inp with ⟨nc, dc, lc, cc, n, d, l, c, p⟩
  cases nc <;> cases dc <;> cases lc <;> cases cc <;> rfl

/-- C10: `resourceIbmSmArbitrarySecretUpdate` sends a metadata PATCH if and
only if at least one of name, description, labels, custom_metadata changed;
the patch contains exactly the changed fields among those four; the payload
is never transmitted (the patch does not depend on it, and the schema marks
`payload` ForceNew so payload changes force replacement); and when none of
the four changed, no update REST call is made at all. -/
theorem claim_C10_update_patch_frame
    (dId : String) (h3 : (goSplitSlash dId).length = 3)
    (inp : ArbitrarySecretUpdateInput)
    (updateResult : Option GoError × Option DetailedResponse) (readG : GetSecretGoResult) :
    ((resourceIbmSmArbitrarySecretUpdate dId inp updateResult readG).2.isSome = true ↔
      (inp.nameChanged = true ∨ inp.descriptionChanged = true ∨ inp.labelsChanged = true ∨
        inp.customMetadataChanged = true)) ∧
    (SdkCall.updateSecretMetadataWithContext ∈
        (resourceIbmSmArbitrarySecretUpdate dId inp updateResult readG).1.calls ↔
      (inp.nameChanged = true ∨ inp.descriptionChanged = true ∨ inp.labelsChanged = true ∨
        inp.customMetadataChanged = true)) ∧
    (∀ patch, (resourceIbmSmArbitrarySecretUpdate dId inp updateResult readG).2 = some patch →
      patch =
        { name := if inp.nameChanged then some inp.name else none
          description := if inp.descriptionChanged then some inp.description else none
          labels := if inp.labelsChanged then some inp.labels else none
          customMetadata := if inp.customMetadataChanged then some inp.customMetadata else none
          expirationDate := none }) ∧
    (∀ p, (resourceIbmSmArbitrarySecretUpdate dId { inp with payload := p } updateResult readG).2
        = (resourceIbmSmArbitrarySecretUpdate dId inp updateResult readG).2) ∧
    (∃ entry ∈ ResourceIbmSmArbitrarySecretSchema,
      entry.name = "payload" ∧ entry.forceNew = true ∧ entry.required = true) := by
  have hchangeIff : arbitrarySecretUpdateHasChange inp = true ↔
      (inp.nameChanged = true ∨ inp.descriptionChanged = true ∨ inp.labelsChanged = true ∨
        inp.customMetadataChanged = true) := by
    simp [arbitrarySecretUpdateHasChange]
    tauto
  refine ⟨?_, ?_, ?_, ?_, ?_⟩
  · rw [← hchangeIff]
    unfold resourceIbmSmArbitrarySecretUpdate
    rw [if_pos h3]
    by_cases hc : arbitrarySecretUpdateHasChange inp
    · cases updateResult.1 <;> simp [hc]
    · simp [hc]
  · rw [← hchangeIff]
    unfold resourceIbmSmArbitrarySecretUpdate
    rw [if_pos h3]
    by_cases hc : arbitrarySecretUpdateHasChange inp
    · cases hu : updateResult.1 <;> simp [hc, hu]
    · simp [hc, read_calls_single dId readG h3]
  · intro patch hpatch
    unfold resourceIbmSmArbitrarySecretUpdate at hpatch
    rw [if_pos h3] at hpatch
    by_cases hc : arbitrarySecretUpdateHasChange inp
    · cases hu : updateResult.1 <;> rw [hu] at hpatch <;> simp [hc] at hpatch <;>
        rw [← hpatch, patchVals_characterization]
    · simp [hc] at hpatch
  · intro p
    rfl
  · exact ⟨{ name := "payload", required := true, forceNew := true, sensitive := true },
      by simp [ResourceIbmSmArbitrarySecretSchema], rfl, rfl, rfl⟩

/-- Witness for C10 at a concrete changed-name update. -/
theorem claim_C10_update_patch_frame_witness :
    (goSplitSlash "us-south/inst/sid").length = 3 ∧
    ((resourceIbmSmArbitrarySecretUpdate "us-south/inst/sid"
        { nameChanged := true, name := "n2", payload := "pp" }
        (none, none) { result := none }).2.isSome = true ↔
      (({ nameChanged := true, name := "n2", payload := "pp" } :
          ArbitrarySecretUpdateInput).nameChanged = true ∨
        ({ nameChanged := true, name := "n2", payload := "pp" } :
          ArbitrarySecretUpdateInput).descriptionChanged = true ∨
        ({ nameChanged := true, name := "n2", payload := "pp" } :
          ArbitrarySecretUpdateInput).labelsChanged = true ∨
        ({ nameChanged := true, name := "n2", payload := "pp" } :
          ArbitrarySecretUpdateInput).customMetadataChanged = true)) :=
  ⟨rfl,
    (claim_C10_update_patch_frame "us-south/inst/sid" rfl
        { nameChanged := true, name := "n2", payload := "pp" }
        (none, none) { result := none }).1⟩

/-- Fully-populated service-credentials response used by the C4
counterexample. -/
def c4Secret : ServiceCredentialsSecret :=
  { id := "sid", createdBy := some "creator", createdAt := some ⟨"2023-01-01T00:00:00Z"⟩,
    crn := some "crn:v1:sc", customMetadata := some [("k", "v")], description := some "d",
    downloaded := some true, labels := some ["l1"], locksTotal := some 0, name := some "nm",
    secretGroupId := some "default", secretType := some "service_credentials",
    state := some 1, stateDescription := some "active",
    updatedAt := some ⟨"2023-01-02T00:00:00Z"⟩, versionsTotal := some 1, ttl := some "86400",
    rotation := some { autoRotate := some true, interval := some 1, unit := some "day" },
    nextRotationDate := some ⟨"2023-02-01T00:00:00Z"⟩ }

/-- C4 as stated is false on the code: `credentials` is declared Computed in
the data-source schema, yet a successful
`dataSourceIbmSmServiceCredentialsSecretRead` never writes it (the same
holds for `source_service`, `secret_id` and `version_custom_metadata`). -/
theorem claim_C4_counterexample_credentials_not_set :
    "credentials" ∈ dataSourceServiceCredentialsComputedAttrs ∧
    "credentials" ∉ (dataSourceIbmSmServiceCredentialsSecretRead (.ok c4Secret)
      "us-south" "inst" "").writes.map Prod.fst := by
  decide

/-- The keys a successful service-credentials read writes, in order. -/
theorem dsServiceCredentials_read_keys (secret : ServiceCredentialsSecret)
    (region instanceId dId : String) :
    (dataSourceIbmSmServiceCredentialsSecretRead (.ok secret)
        region instanceId dId).writes.map Prod.fst =
      ["region", "created_by", "created_at", "crn"]
      ++ (if secret.customMetadata.isSome then ["custom_metadata"] else [])
      ++ ["description", "downloaded"]
      ++ (if secret.labels.isSome then ["labels"] else [])
      ++ ["locks_total", "name", "secret_group_id", "secret_type", "state",
          "state_description", "updated_at", "versions_total", "ttl", "rotation",
          "next_rotation_date"] := by
  rcases secret with ⟨id, cb, ca, crn, cm, ds, dl, lb, lt, nm, sg, st, sta, sd, ua, vt, t, rot, nrd⟩
  cases cm <;> cases lb <;> simp [dataSourceIbmSmServiceCredentialsSecretRead]

/-- C4 (amended): a successful read populates every Computed attribute of
the data-source schema from the corresponding response field, except the
four that the read never writes (`secret_id`, `version_custom_metadata`,
`credentials`, `source_service`); `custom_metadata` and `labels` are
populated exactly when present in the response. -/
theorem claim_C4_amended_flattening (secret : ServiceCredentialsSecret)
    (region instanceId dId : String) :
    (dataSourceIbmSmServiceCredentialsSecretRead (.ok secret) region instanceId dId).diag
      = none ∧
    (∀ a, a ∈ dataSourceServiceCredentialsComputedAttrs →
      a ∉ ["secret_id", "version_custom_metadata", "credentials", "source_service"] →
      a ∉ ["custom_metadata", "labels"] →
      a ∈ (dataSourceIbmSmServiceCredentialsSecretRead (.ok secret)
        region instanceId dId).writes.map Prod.fst) ∧
    ("custom_metadata" ∈ (dataSourceIbmSmServiceCredentialsSecretRead (.ok secret)
        region instanceId dId).writes.map Prod.fst ↔ secret.customMetadata.isSome = true) ∧
    ("labels" ∈ (dataSourceIbmSmServiceCredentialsSecretRead (.ok secret)
        region instanceId dId).writes.map Prod.fst ↔ secret.labels.isSome = true) ∧
    (∀ a, a ∈ (["secret_id", "version_custom_metadata", "credentials", "source_service"] :
        List String) →
      a ∉ (dataSourceIbmSmServiceCredentialsSecretRead (.ok secret)
        region instanceId dId).writes.map Prod.fst) := by
  have hkeys := dsServiceCredentials_read_keys secret region instanceId dId
  refine ⟨rfl, ?_, ?_, ?_, ?_⟩
  · intro a ha hnot4 hnot2
    rw [hkeys]
    have hca : dataSourceServiceCredentialsComputedAttrs =
        ["secret_id", "created_by", "created_at", "crn", "custom_metadata", "downloaded",
         "labels", "locks_total", "name", "secret_group_id", "secret_type", "state",
         "state_description", "updated_at", "versions_total", "version_custom_metadata",
         "ttl", "rotation", "next_rotation_date", "credentials", "source_service"] := rfl
    rw [hca] at ha
    fin_cases ha <;> simp_all
  · rw [hkeys]
    by_cases h : secret.customMetadata.isSome <;> simp [h]
  · rw [hkeys]
    by_cases h : secret.labels.isSome <;> simp [h]
  · intro a ha
    rw [hkeys]
    by_cases hc : secret.customMetadata.isSome <;> by_cases hl : secret.labels.isSome <;>
      fin_cases ha <;> simp [hc, hl]

/-- Witness for the amended C4 at the fully-populated concrete response. -/
theorem claim_C4_amended_flattening_witness :
    (dataSourceIbmSmServiceCredentialsSecretRead (.ok c4Secret) "us-south" "inst" "").diag
      = none ∧
    ("custom_metadata" ∈ (dataSourceIbmSmServiceCredentialsSecretRead (.ok c4Secret)
        "us-south" "inst" "").writes.map Prod.fst ↔ c4Secret.customMetadata.isSome = true) :=
  ⟨(claim_C4_amended_flattening c4Secret "us-south" "inst" "").1,
   (claim_C4_amended_flattening c4Secret "us-south" "inst" "").2.2.1⟩

end SmProvider
